import Mathlib

/-!
Verification of the vinom-api maze-game backend core.

The definitions below are a shallow embedding of the Go sources:
maze operations from the `WillsonMaze` implementation
(src/unnamed/part_010), the game engine from src/game/game_server.go,
the session registry from the `GameSessionManager` (src/unnamed/part_001),
the matchmaker from src/service/match.go, and the secure UDP socket from
src/udp/server_socket.go.  Machine integers (Go int / int32) are modelled
as Lean Int: every arithmetic operation performed by the embedded code
happens on values whose magnitude is far below 2^31 (maze dimensions are
at most 20 and all positions are bounds-checked before any arithmetic on
them is trusted), so wrap-around cannot occur on the modelled paths.
-/

deriving instance DecidableEq for Except

namespace Vinom

/-- Byte, as carried in Go []byte slices. -/
abbrev Byte := Nat

/-- Byte string ([]byte). -/
abbrev Bytes := List Nat

/-- uuid.UUID is a 16-byte value; we carry the raw bytes. -/
abbrev UUID := List Nat

/-- Association-list lookup with decidable key equality, mirroring a Go
map read `v, ok := m[k]`. -/
def assocFind {α β : Type} [DecidableEq α] (k : α) : List (α × β) → Option β
  | [] => none
  | kv :: rest => if kv.1 = k then some kv.2 else assocFind k rest

/-- Association-list insert, mirroring a Go map write `m[k] = v`
(overwrite if present, append otherwise). -/
def assocInsert {α β : Type} [DecidableEq α] (k : α) (v : β) :
    List (α × β) → List (α × β)
  | [] => [(k, v)]
  | kv :: rest =>
    if kv.1 = k then (k, v) :: rest else kv :: assocInsert k v rest

/-! ## Maze data model (src/unnamed/part_010) -/

/-- A maze cell: four walls and a reward (Go `Cell`, int32 reward). -/
structure Cell where
  northWall : Bool
  southWall : Bool
  eastWall : Bool
  westWall : Bool
  reward : Int
deriving DecidableEq, Repr

/-- Row/column position of a cell (Go `CellPosition`, int32 fields). -/
structure CellPosition where
  row : Int
  col : Int
deriving DecidableEq, Repr

/-- A move between two positions (Go `Move` with `from`/`to`). -/
structure Move where
  fromPos : CellPosition
  toPos : CellPosition
deriving DecidableEq, Repr

/-- `WillsonMaze`: width, height, grid of cells, cached total reward. -/
structure WillsonMaze where
  width : Nat
  height : Nat
  grid : List (List Cell)
  totalRward : Int
deriving DecidableEq, Repr

/-- The cell used when indexing outside the grid.  The Go code indexes
`m.grid[row][col]` only after an `InBound` check, so on every path the
source executes this default is never produced. -/
def defaultCell : Cell :=
  { northWall := true, southWall := true, eastWall := true,
    westWall := true, reward := 0 }

/-- Read `m.grid[p.row][p.col]`. -/
def WillsonMaze.cellAt (m : WillsonMaze) (p : CellPosition) : Cell :=
  (m.grid.getD p.row.toNat []).getD p.col.toNat defaultCell

/-- Write a new reward into `m.grid[p.row][p.col]` (Go `SetReward`). -/
def WillsonMaze.setCellReward (m : WillsonMaze) (p : CellPosition)
    (v : Int) : WillsonMaze :=
  { m with
    grid := m.grid.set p.row.toNat
      ((m.grid.getD p.row.toNat []).set p.col.toNat
        { (m.grid.getD p.row.toNat []).getD p.col.toNat defaultCell with
          reward := v }) }

/-- `GetTotalReward` returns the cached `totalRward` field. -/
def WillsonMaze.GetTotalReward (m : WillsonMaze) : Int :=
  m.totalRward

/-- Sum of all cell rewards currently in the grid (the quantity the
spec calls `Σ cell.reward`). -/
def WillsonMaze.sumRewards (m : WillsonMaze) : Int :=
  (m.grid.map fun row => (row.map Cell.reward).sum).sum

/-- `InBound` from part_010: `row >= 0 && row < m.height && col >= 0 &&
col < m.width`. -/
def WillsonMaze.InBound (m : WillsonMaze) (row col : Int) : Bool :=
  decide (0 ≤ row) && decide (row < (m.height : Int)) &&
  decide (0 ≤ col) && decide (col < (m.width : Int))

/-- The `Directions` map: direction name to (row, col) delta.  A missing
key yields `none` (the Go two-valued map read). -/
def Directions (dir : String) : Option CellPosition :=
  if dir = "North" then some { row := -1, col := 0 }
  else if dir = "South" then some { row := 1, col := 0 }
  else if dir = "East" then some { row := 0, col := 1 }
  else if dir = "West" then some { row := 0, col := -1 }
  else none

/-- `horizontalDir := map[int32]string{1: "West", -1: "East"}`; a missing
key yields the zero value `""`. -/
def horizontalDir (delta : Int) : String :=
  if delta = 1 then "West" else if delta = -1 then "East" else ""

/-- `verticalDir := map[int32]string{-1: "South", 1: "North"}`; a missing
key yields the zero value `""`. -/
def verticalDir (delta : Int) : String :=
  if delta = -1 then "South" else if delta = 1 then "North" else ""

/-- `getDirection` from part_010 lines 147-162 (it does not read the
receiver, so it is embedded as a plain function). -/
def getDirection (pos1 pos2 : CellPosition) : String :=
  if pos1.col ≠ pos2.col ∧ pos1.row ≠ pos2.row then "Direction Not Allowed"
  else if pos1.col = pos2.col then verticalDir (pos1.row - pos2.row)
  else horizontalDir (pos1.col - pos2.col)

/-- `IsValidMove` from part_010 lines 224-242: bounds check, then a
switch on the direction, open-wall check on both sides. -/
def WillsonMaze.IsValidMove (m : WillsonMaze) (mv : Move) : Bool :=
  if !(m.InBound mv.fromPos.row mv.fromPos.col) ||
     !(m.InBound mv.toPos.row mv.toPos.col) then false
  else
    let dir := getDirection mv.fromPos mv.toPos
    if dir = "North" then
      !(m.cellAt mv.fromPos).northWall && !(m.cellAt mv.toPos).southWall
    else if dir = "South" then
      !(m.cellAt mv.fromPos).southWall && !(m.cellAt mv.toPos).northWall
    else if dir = "East" then
      !(m.cellAt mv.fromPos).eastWall && !(m.cellAt mv.toPos).westWall
    else if dir = "West" then
      !(m.cellAt mv.fromPos).westWall && !(m.cellAt mv.toPos).eastWall
    else false

/-- `Move` from part_010 lines 245-253: on a valid move, read the
destination cell's reward, zero that cell, and return the reward.  Note
that the cached `totalRward` field is left untouched by the source. -/
def WillsonMaze.Move (m : WillsonMaze) (mv : Move) :
    Except String (Int × WillsonMaze) :=
  if !(m.IsValidMove mv) then .error "invalid move request"
  else
    let reward := (m.cellAt mv.toPos).reward
    .ok (reward, m.setCellReward mv.toPos 0)

/-- `NewValidMove` from part_010 lines 55-76. -/
def WillsonMaze.NewValidMove (m : WillsonMaze) (curPos : CellPosition)
    (dir : String) : Except String Vinom.Move :=
  match Directions dir with
  | none => .error "invalid direction"
  | some delta =>
    let nextPos : CellPosition :=
      { row := curPos.row + delta.row, col := curPos.col + delta.col }
    let move : Vinom.Move := { fromPos := curPos, toPos := nextPos }
    if !(m.IsValidMove move) then .error "invalid move"
    else .ok move

/-- `RemoveReward` from part_010 lines 308-314. -/
def WillsonMaze.RemoveReward (m : WillsonMaze) (pos : CellPosition) :
    Except String WillsonMaze :=
  if pos.row < 0 ∨ (m.height : Int) ≤ pos.row ∨
     pos.col < 0 ∨ (m.width : Int) ≤ pos.col then
    .error "position out of bounds"
  else .ok (m.setCellReward pos 0)

/-! ## Spec-side move-validity predicates (for claim C9).
These follow the specification's words ("`to` is one of the four
orthogonal neighbors of `from`, and the wall separating them is open in
both cells"), to be compared with `IsValidMove` above. -/

/-- `q` is the cell immediately north of `p`. -/
def isNorthOf (p q : CellPosition) : Prop :=
  q.col = p.col ∧ q.row = p.row - 1

/-- `q` is the cell immediately south of `p`. -/
def isSouthOf (p q : CellPosition) : Prop :=
  q.col = p.col ∧ q.row = p.row + 1

/-- `q` is the cell immediately east of `p`. -/
def isEastOf (p q : CellPosition) : Prop :=
  q.row = p.row ∧ q.col = p.col + 1

/-- `q` is the cell immediately west of `p`. -/
def isWestOf (p q : CellPosition) : Prop :=
  q.row = p.row ∧ q.col = p.col - 1

/-- `q` is one of the four orthogonal neighbors of `p` (spec wording). -/
def orthogonalNeighbor (p q : CellPosition) : Prop :=
  isNorthOf p q ∨ isSouthOf p q ∨ isEastOf p q ∨ isWestOf p q

/-- The wall separating adjacent cells `p` and `q` is open in both cells
(spec wording); for non-adjacent pairs there is no separating wall and
the predicate is false. -/
def sharedWallOpen (m : WillsonMaze) (p q : CellPosition) : Prop :=
  (isNorthOf p q ∧ (m.cellAt p).northWall = false ∧
    (m.cellAt q).southWall = false) ∨
  (isSouthOf p q ∧ (m.cellAt p).southWall = false ∧
    (m.cellAt q).northWall = false) ∨
  (isEastOf p q ∧ (m.cellAt p).eastWall = false ∧
    (m.cellAt q).westWall = false) ∨
  (isWestOf p q ∧ (m.cellAt p).westWall = false ∧
    (m.cellAt q).eastWall = false)

/-! ## Game engine (src/game/game_server.go) -/

/-- A player: id, position, accumulated reward (int32 in Go). -/
structure Player where
  id : UUID
  pos : CellPosition
  reward : Int
deriving DecidableEq, Repr

/-- A decoded move action: player id, claimed current position, and a
direction string (Go `Action` with `GetID`, `RetriveFrom`,
`GetDirection`). -/
structure Action where
  id : UUID
  fromPos : CellPosition
  direction : String
deriving DecidableEq, Repr

/-- The engine state guarded by the engine lock: maze, player map,
version and the `rewardsLeft` field (channels and the lock itself carry
no game state). -/
structure Game where
  maze : WillsonMaze
  players : List (UUID × Player)
  version : Int
  rewardsLeft : Int
deriving DecidableEq, Repr

/-- `minPlayers = 2` (game_server.go). -/
def minPlayers : Nat := 2

/-- `maxPlayers = 4` (game_server.go). -/
def maxPlayers : Nat := 4

/-- `minDimension = 3` (game_server.go). -/
def minDimension : Nat := 3

/-- The player-registration loop of `New` (game_server.go lines 63-70):
bounds-check each player, insert it into the map, clear its starting
cell's reward (the `RemoveReward` error is discarded by the source). -/
def gameNewLoop : WillsonMaze → List (UUID × Player) → List Player →
    Except String (WillsonMaze × List (UUID × Player))
  | maze, acc, [] => .ok (maze, acc)
  | maze, acc, p :: rest =>
    if !(maze.InBound p.pos.row p.pos.col) then
      .error "player is out of the maze"
    else
      let maze2 := match maze.RemoveReward p.pos with
        | .ok m2 => m2
        | .error _ => maze
      gameNewLoop maze2 (assocInsert p.id p acc) rest

/-- `New` (game_server.go lines 50-83).  Note that the source
initializes `rewardsLeft` to `maze.Width() * maze.Height()`. -/
def GameNew (maze : WillsonMaze) (players : List Player) :
    Except String Game :=
  if players.length > maxPlayers then .error "too many players"
  else if players.length < minPlayers then .error "not enough players"
  else if maze.width < minDimension ∨ maze.height < minDimension then
    .error "dimension is not big enough"
  else
    match gameNewLoop maze [] players with
    | .error e => .error e
    | .ok (maze2, pm) =>
      .ok { maze := maze2, players := pm, version := 0,
            rewardsLeft := (maze2.width * maze2.height : Int) }

/-- How a single move action was disposed of by the engine. -/
inductive MoveOutcome
  | rejectedNoPlayer
  | rejectedStalePos
  | rejectedInvalidMove
  | movedAndStopped
  | movedAndBroadcast
deriving DecidableEq, Repr

/-- `handleIncomingMove` (game_server.go lines 158-188): look the player
up, require its current position to equal the action's `from`, build a
validated move, apply it to the maze (the `Move` error is discarded by
`reward, _ := g.maze.Move(move)`), add the collected reward to the
player, increment `version`, then stop if the maze-cached total reward
is zero, otherwise enqueue a broadcast.  The source never writes the
player's position. -/
def handleIncomingMove (g : Game) (a : Action) : Game × MoveOutcome :=
  match assocFind a.id g.players with
  | none => (g, .rejectedNoPlayer)
  | some p =>
    if p.pos.row ≠ a.fromPos.row ∨ p.pos.col ≠ a.fromPos.col then
      (g, .rejectedStalePos)
    else
      match g.maze.NewValidMove p.pos a.direction with
      | .error _ => (g, .rejectedInvalidMove)
      | .ok move =>
        let rm := match g.maze.Move move with
          | .ok rm => rm
          | .error _ => (0, g.maze)
        let p2 := { p with reward := p.reward + rm.1 }
        let g2 := { g with
          maze := rm.2,
          players := assocInsert a.id p2 g.players,
          version := g.version + 1 }
        if g2.maze.GetTotalReward = 0 then (g2, .movedAndStopped)
        else (g2, .movedAndBroadcast)

/-- True of an `Except` success value. -/
def exceptOk {ε α : Type} : Except ε α → Bool
  | .ok _ => true
  | .error _ => false

/-- The engine accepts a move action exactly when the player exists, its
position matches the action's `from`, and the maze validates the move
(the three early-return guards of `handleIncomingMove`). -/
def moveAccepted (g : Game) (a : Action) : Bool :=
  match assocFind a.id g.players with
  | none => false
  | some p =>
    if p.pos.row ≠ a.fromPos.row ∨ p.pos.col ≠ a.fromPos.col then false
    else exceptOk (g.maze.NewValidMove p.pos a.direction)

/-- Process a sequence of move actions. -/
def runMoves (g : Game) (acts : List Action) : Game :=
  acts.foldl (fun g a => (handleIncomingMove g a).1) g

/-! ## Session registry (`GameSessionManager`, src/unnamed/part_001) -/

/-- `defaultMazeSize = 10` (part_001). -/
def defaultMazeSize : Nat := 10

/-- `defaultPlayerPositions` (part_001 lines 394-399): hard-coded
`{0,0}, {9,9}, {9,0}, {0,9}`. -/
def defaultPlayerPositions : List CellPosition :=
  [{ row := 0, col := 0 }, { row := 9, col := 9 },
   { row := 9, col := 0 }, { row := 0, col := 9 }]

/-- The player-construction loop of `NewSession`
(`for i, pID := range playerIDs`): player `i` gets
`defaultPlayerPositions[i]` (reward left at its zero value). -/
def newSessionPlayersLoop : Nat → List UUID → List Player
  | _, [] => []
  | i, pid :: rest =>
    { id := pid,
      pos := defaultPlayerPositions.getD i { row := 0, col := 0 },
      reward := 0 } :: newSessionPlayersLoop (i + 1) rest

/-- What `NewSession` fixes before handing off to the maze factory and
the engine: the `mazeFactory(20, defaultMazeSize)` arguments and the
constructed player list. -/
structure NewSessionSetup where
  mazeFactoryWidth : Nat
  mazeFactoryHeight : Nat
  players : List Player
deriving DecidableEq, Repr

/-- The deterministic prefix of `NewSession` (part_001 lines 439-484):
reject more than `maxPlayers` ids (the service package shares the game
package's `maxPlayers = 4`), build the players from
`defaultPlayerPositions`, and call `mazeFactory(20, defaultMazeSize)`. -/
def NewSessionSetupOf (playerIDs : List UUID) : Option NewSessionSetup :=
  if playerIDs.length > maxPlayers then none
  else some
    { mazeFactoryWidth := 20,
      mazeFactoryHeight := defaultMazeSize,
      players := newSessionPlayersLoop 0 playerIDs }

/-- `uuid.FromBytes` succeeds exactly on 16-byte inputs. -/
def uuidFromBytes (b : Bytes) : Option UUID :=
  if b.length = 16 then some b else none

/-- `GameSessionManager.Authenticate` (part_001 lines 495-511): parse
the token bytes as a UUID, then require an active session for it. -/
def GSMAuthenticate (playerToSession : List (UUID × UUID)) (s : Bytes) :
    Option UUID :=
  match uuidFromBytes s with
  | none => none
  | some id =>
    if (assocFind id playerToSession).isSome then some id else none

/-! ## Matchmaker (src/service/match.go, `match`, lines 106-131) -/

/-- Externally observable effects of one `match` trigger: the argument
of the `onMatch` handler call, if any, and the ids the trigger
re-inserts into the queue.  The source contains no re-enqueue call, so
`reenqueued` is `[]` on every path. -/
structure MatchTriggerResult where
  handlerCalled : Option (List UUID)
  reenqueued : List UUID
deriving DecidableEq, Repr

/-- `Matchmaker.match` (match.go lines 106-131), with the queue length,
the `DequeTops` result and `uuid.Parse` supplied as values: when the
count reaches `maxPlayer`, dequeue, drop members that do not parse as
UUIDs, and (if a handler is set) invoke it with whatever ids remain. -/
def matchTrigger (maxPlayer : Int) (handlerSet : Bool) (qLen : Int)
    (dequeTops : Except String (List String))
    (uuidParse : String → Option UUID) : MatchTriggerResult :=
  if maxPlayer ≤ qLen then
    match dequeTops with
    | .error _ => { handlerCalled := none, reenqueued := [] }
    | .ok rawPlayers =>
      let playersIDs := rawPlayers.filterMap uuidParse
      if handlerSet then
        { handlerCalled := some playersIDs, reenqueued := [] }
      else { handlerCalled := none, reenqueued := [] }
  else { handlerCalled := none, reenqueued := [] }

/-! ## Secure UDP socket (src/udp/server_socket.go) -/

/-- Externally observable effects of `handleCustomRecord`: whether an
UNAUTH record was sent back to the source address, and the
`onCustomClientRequest` call, if any. -/
structure CustomRecordResult where
  unauthSent : Bool
  handlerCalled : Option (UUID × Byte × Bytes)
deriving DecidableEq, Repr

/-- `handleCustomRecord` (server_socket.go lines 352-378) from the point
where the record body has been decrypted with the registered client's
key: `splitSessionIDAndBody` fails when the payload is shorter than the
session id (that branch logs, sends UNAUTH and drops); a session-id
mismatch only logs and drops; otherwise the request handler is called
with the body. -/
def handleCustomRecord (clID : UUID) (clSessionID : Bytes) (rType : Byte)
    (decrypted : Bytes) : CustomRecordResult :=
  if decrypted.length < clSessionID.length then
    { unauthSent := true, handlerCalled := none }
  else
    let sessionID := decrypted.take clSessionID.length
    let body := decrypted.drop clSessionID.length
    if sessionID ≠ clSessionID then
      { unauthSent := false, handlerCalled := none }
    else
      { unauthSent := false, handlerCalled := some (clID, rType, body) }

/-- The fields of the second ClientHello read by `sayServerHello`. -/
structure ServerHelloMsg where
  random : Bytes
  cookie : Bytes
  token : Bytes
  key : Bytes
deriving DecidableEq, Repr

/-- Externally observable effects of `sayServerHello`: the clients map
(id to session id — the map entry the claim observes), the SERVER_HELLO
recipient if one was sent, and the byte string the authenticator was
invoked with, if it was invoked. -/
structure ServerHelloResult where
  clients : List (UUID × Bytes)
  serverHelloSentTo : Option UUID
  authenticateCalledWith : Option Bytes
deriving DecidableEq, Repr

/-- `insecureSymmKeySize = 32` (server_socket.go). -/
def insecureSymmKeySize : Nat := 32

/-- `sayServerHello` (server_socket.go lines 412-462).  The expected
cookie (`sessionManager.GetAddrCookieHMAC(addr, h.random)`) and the
fresh session id (`GenerateSessionID`, which draws randomness) are
passed in as values; `crypto.HMACEqual` is `hmac.Equal`, i.e. byte-slice
equality; the symmetric decryption of the token and the authenticator
are supplied as functions; encoding and sending of the SERVER_HELLO are
modelled as succeeding (their failure in the source happens only after
the client has already been registered). -/
def sayServerHello (expectedCookie : Bytes)
    (symDecrypt : Bytes → Bytes → Option Bytes)
    (authenticate : Bytes → Option UUID) (newSessionID : Bytes)
    (clients : List (UUID × Bytes)) (h : ServerHelloMsg) :
    ServerHelloResult :=
  if h.cookie ≠ expectedCookie then
    { clients := clients, serverHelloSentTo := none,
      authenticateCalledWith := none }
  else if h.key.length < insecureSymmKeySize then
    { clients := clients, serverHelloSentTo := none,
      authenticateCalledWith := none }
  else
    let tokenOpt := if 0 < h.token.length then symDecrypt h.token h.key
      else some []
    match tokenOpt with
    | none =>
      { clients := clients, serverHelloSentTo := none,
        authenticateCalledWith := none }
    | some token =>
      match authenticate token with
      | none =>
        { clients := clients, serverHelloSentTo := none,
          authenticateCalledWith := some token }
      | some id =>
        { clients := assocInsert id newSessionID clients,
          serverHelloSentTo := some id,
          authenticateCalledWith := some token }

/-! ## Go channel semantics for the engine's `stop` channel (claim C7) -/

/-- State of a buffered Go channel of booleans. -/
inductive ChanState
  | opened (buf : List Bool)
  | closed
deriving DecidableEq, Repr

/-- Result of a channel send. -/
inductive SendResult
  | accepted (c : ChanState)
  | wouldBlock
  | panicked
deriving DecidableEq, Repr

/-- The engine's `stop` channel is `make(chan bool, 1)`
(game_server.go line 77). -/
def stopChanCap : Nat := 1

/-- Go semantics of `ch <- v` on a buffered channel: sending on a
closed channel panics; a full buffer blocks. -/
def chanSend (c : ChanState) (v : Bool) : SendResult :=
  match c with
  | .closed => .panicked
  | .opened buf =>
    if buf.length < stopChanCap then .accepted (.opened (buf ++ [v]))
    else .wouldBlock

/-- Go semantics of `<-ch`: take the first buffered value; an empty
open (or closed) buffer yields nothing here (our trace never hits it). -/
def chanRecv : ChanState → Option (Bool × ChanState)
  | .opened (v :: rest) => some (v, .opened rest)
  | _ => none

/-- Go semantics of `close(ch)`: closing a closed channel panics
(modelled as `none`). -/
def chanClose : ChanState → Option ChanState
  | .opened _ => some .closed
  | .closed => none

/-- The `stop`-channel history of the engine when `Stop` runs twice with
the event loop scheduled in between — precisely what happens when the
duration timer (`time.AfterFunc(gameDuration, g.Stop)`, line 87) fires
after a reward-exhaustion `Stop`: first `Stop` executes `g.stop <- true`
(line 119), the `Start` loop receives it (line 90) and executes
`close(g.stop)` (line 91), then the second `Stop` executes
`g.stop <- true` again. -/
def doubleStopOnStopChan : SendResult :=
  match chanSend (.opened []) true with
  | .accepted s1 =>
    match chanRecv s1 with
    | some (_, s2) =>
      match chanClose s2 with
      | some s3 => chanSend s3 true
      | none => .wouldBlock
    | none => .wouldBlock
  | r => r

/-! ## Concrete inputs used by the counterexamples and witnesses -/

/-- A concrete 16-byte player id. -/
def uuidP1 : UUID := List.replicate 16 1

/-- A second concrete 16-byte player id. -/
def uuidP2 : UUID := List.replicate 16 2

/-- A concrete 3x3 spanning-tree maze (the path
(2,2)-(2,1)-(2,0)-(1,0)-(0,0)-(0,1)-(0,2)-(1,2)-(1,1) carved open, all
walls symmetric), every cell holding reward 1, with the cached total
reward correctly populated to 9. -/
def maze3 : WillsonMaze :=
  { width := 3, height := 3,
    grid :=
      [[{ northWall := true, southWall := false, eastWall := false,
          westWall := true, reward := 1 },
        { northWall := true, southWall := true, eastWall := false,
          westWall := false, reward := 1 },
        { northWall := true, southWall := false, eastWall := true,
          westWall := false, reward := 1 }],
       [{ northWall := false, southWall := false, eastWall := true,
          westWall := true, reward := 1 },
        { northWall := true, southWall := true, eastWall := false,
          westWall := true, reward := 1 },
        { northWall := false, southWall := true, eastWall := true,
          westWall := false, reward := 1 }],
       [{ northWall := false, southWall := true, eastWall := false,
          westWall := true, reward := 1 },
        { northWall := true, southWall := true, eastWall := false,
          westWall := false, reward := 1 },
        { northWall := true, southWall := true, eastWall := true,
          westWall := false, reward := 1 }]],
    totalRward := 9 }

/-- A player standing at (1,0) of `maze3`. -/
def playerP1 : Player :=
  { id := uuidP1, pos := { row := 1, col := 0 }, reward := 0 }

/-- A player standing at (2,2) of `maze3`. -/
def playerP2 : Player :=
  { id := uuidP2, pos := { row := 2, col := 2 }, reward := 0 }

/-- A player standing at (0,0) of `maze3` (for the construction
counterexample). -/
def playerQ1 : Player :=
  { id := uuidP1, pos := { row := 0, col := 0 }, reward := 0 }

/-- An engine state over `maze3` with `playerP1` and `playerP2`. -/
def game1 : Game :=
  { maze := maze3, players := [(uuidP1, playerP1), (uuidP2, playerP2)],
    version := 0, rewardsLeft := 9 }

/-- `playerP1` asks to move north from (1,0); the wall to (0,0) is
open, so the engine accepts this move. -/
def actionNorth : Action :=
  { id := uuidP1, fromPos := { row := 1, col := 0 }, direction := "North" }

/-- The maze-level move from (1,0) to (0,0). -/
def mvNorth : Move :=
  { fromPos := { row := 1, col := 0 }, toPos := { row := 0, col := 0 } }

/-- A parse oracle for the matchmaker counterexample: only the member
"p1" is a valid UUID. -/
def parseDemo : String → Option UUID :=
  fun s => if s = "p1" then some uuidP1 else none

/-- A second ClientHello with a valid cookie, a 32-byte key, and no
token. -/
def helloNoToken : ServerHelloMsg :=
  { random := [3, 3], cookie := [7, 7], token := [],
    key := List.replicate 32 0 }

/-! ## Theorems -/

/-- Helper: `getDirection` on a vertical pair reduces to `verticalDir`. -/
theorem getDirection_vertical (p q : CellPosition) (hc : p.col = q.col) :
    getDirection p q = verticalDir (p.row - q.row) := by
  unfold getDirection
  rw [if_neg (by tauto), if_pos hc]

/-- Helper: `getDirection` on a horizontal pair reduces to
`horizontalDir`. -/
theorem getDirection_horizontal (p q : CellPosition) (hc : p.col ≠ q.col)
    (hr : p.row = q.row) : getDirection p q = horizontalDir (p.col - q.col) := by
  unfold getDirection
  rw [if_neg (by tauto), if_neg hc]

/-- Helper: `getDirection` on a diagonal pair is the sentinel string. -/
theorem getDirection_diagonal (p q : CellPosition) (hc : p.col ≠ q.col)
    (hr : p.row ≠ q.row) : getDirection p q = "Direction Not Allowed" := by
  unfold getDirection
  rw [if_pos ⟨hc, hr⟩]

/-- C3: when a registered client's application record decrypts to a
payload whose prefix of length `len(sessionId)` differs from the
client's session id, `handleCustomRecord` only logs and drops the
record: no UNAUTH is sent (the UNAUTH reply is attached to the
too-short-payload branch instead).  Concrete run: session id `[1,2]`,
decrypted payload `[9,9,5]` (long enough, wrong prefix). -/
theorem C3_session_mismatch_drops_without_unauth :
    handleCustomRecord uuidP1 [1, 2] 64 [9, 9, 5] =
      { unauthSent := false, handlerCalled := none } := by decide

/-- C7: the engine's `stop` channel protocol panics on a second `Stop`:
after a first `Stop` sends on `g.stop` and the event loop receives the
sentinel and closes the channel, the next `Stop` (for instance the
duration timer firing after a reward-exhaustion stop) sends on a closed
channel, which panics in Go.  So `Stop` is not idempotent. -/
theorem C7_second_stop_panics :
    doubleStopOnStopChan = SendResult.panicked := by decide

/-- C1: the engine accepts the move of `playerP1` from (1,0) north to
(0,0) in `game1` and zeroes the destination cell's reward, but the
player's stored position afterwards is still (1,0), not the move's
destination (0,0): `handleIncomingMove` never writes the player's
position. -/
theorem C1_accepted_move_leaves_position_unchanged :
    moveAccepted game1 actionNorth = true ∧
    (handleIncomingMove game1 actionNorth).2 = MoveOutcome.movedAndBroadcast ∧
    (assocFind uuidP1 (handleIncomingMove game1 actionNorth).1.players).map
      Player.pos = some { row := 1, col := 0 } ∧
    ({ row := 1, col := 0 } : CellPosition) ≠ { row := 0, col := 0 } ∧
    (((handleIncomingMove game1 actionNorth).1.maze).cellAt
      { row := 0, col := 0 }).reward = 0 := by decide

/-- C2: applying the valid maze move (1,0) → (0,0) on `maze3` collects
the destination reward 1 and zeroes the cell, yet the cached
`totalRward` is still 9 (the claim would require 8); the actual
remaining sum of cell rewards is 8.  `WillsonMaze.Move` never
decrements `totalRward`, so the engine's reward-exhaustion stop
condition `GetTotalReward() == 0` can never become true through
moves. -/
theorem C2_totalReward_not_decremented :
    (maze3.Move mvNorth).map (fun rm =>
      (rm.1, rm.2.GetTotalReward,
       (rm.2.cellAt { row := 0, col := 0 }).reward, rm.2.sumRewards)) =
      .ok (1, 9, 0, 8) ∧ (9 : Int) ≠ 9 - 1 := by decide

/-- C6: constructing an engine over `maze3` (all nine cells reward 1,
cached total 9) with players at (0,0) and (2,2) clears the two starting
cells, leaving Σ cell.reward = 7, but sets `rewardsLeft` to
`Width() * Height() = 9`: the field does not equal the sum of cell
rewards even at construction. -/
theorem C6_rewardsLeft_is_not_reward_sum :
    (GameNew maze3 [playerQ1, playerP2]).map
      (fun g => (g.rewardsLeft, g.maze.sumRewards)) = .ok (9, 7) ∧
    (9 : Int) ≠ 7 := by decide

/-- C4 counterexample: `newSession` for two players assigns the second
player position (9,9), not the claim's `(H−1, W−1) = (9,19)`; the
positions are the hard-coded `defaultPlayerPositions`, whose columns
ignore the maze width 20. -/
theorem C4_counterexample_second_corner :
    (NewSessionSetupOf [uuidP1, uuidP2]).map
      (fun r => r.players.map Player.pos) =
      some [{ row := 0, col := 0 }, { row := 9, col := 9 }] ∧
    ({ row := 9, col := 9 } : CellPosition) ≠ { row := 9, col := 19 } := by
  decide

/-- Helper: each entry produced by the `NewSession` player loop carries
the corresponding id and the `defaultPlayerPositions` entry. -/
theorem newSessionPlayersLoop_getD (ids : List UUID) :
    ∀ i j, j < ids.length →
      (newSessionPlayersLoop i ids).getD j playerP1 =
        { id := ids.getD j [],
          pos := defaultPlayerPositions.getD (i + j) { row := 0, col := 0 },
          reward := 0 } := by
  induction ids with
  | nil => intro i j h; simp at h
  | cons a rest ih =>
    intro i j h
    cases j with
    | zero => simp [newSessionPlayersLoop]
    | succ j2 =>
      have h2 : j2 < rest.length := by simpa using h
      have := ih (i + 1) j2 h2
      simp only [newSessionPlayersLoop, List.getD_cons_succ, this]
      have harith : i + 1 + j2 = i + (j2 + 1) := by omega
      rw [harith]

/-- Helper: the `NewSession` player loop preserves length. -/
theorem newSessionPlayersLoop_length (ids : List UUID) :
    ∀ i, (newSessionPlayersLoop i ids).length = ids.length := by
  induction ids with
  | nil => intro i; rfl
  | cons a rest ih => intro i; simp [newSessionPlayersLoop, ih]

/-- C4 (amended): for at most `maxPlayers` player ids, `newSession`
builds the maze via `mazeFactory(20, 10)` and assigns player `j` the
`j`-th entry of the hard-coded corner list
`(0,0), (9,9), (9,0), (0,9)` — i.e. the corners of a 10×10 square, not
of the 10×20 maze. -/
theorem C4_newSession_positions (ids : List UUID)
    (h : ids.length ≤ maxPlayers) :
    ∃ r, NewSessionSetupOf ids = some r ∧
      r.mazeFactoryWidth = 20 ∧ r.mazeFactoryHeight = 10 ∧
      r.players.length = ids.length ∧
      ∀ j, j < ids.length →
        (r.players.getD j playerP1).id = ids.getD j [] ∧
        (r.players.getD j playerP1).pos =
          defaultPlayerPositions.getD j { row := 0, col := 0 } := by
  have hr : NewSessionSetupOf ids = some
      { mazeFactoryWidth := 20, mazeFactoryHeight := defaultMazeSize,
        players := newSessionPlayersLoop 0 ids } := by
    unfold NewSessionSetupOf
    rw [if_neg (by omega)]
  refine ⟨_, hr, rfl, rfl, newSessionPlayersLoop_length ids 0, ?_⟩
  intro j hj
  rw [newSessionPlayersLoop_getD ids 0 j hj]
  exact ⟨rfl, by simp⟩

/-- Witness for C4's amended theorem at a concrete two-player list. -/
theorem C4_newSession_positions_witness :
    ([uuidP1, uuidP2] : List UUID).length ≤ maxPlayers ∧
    ∃ r, NewSessionSetupOf [uuidP1, uuidP2] = some r ∧
      r.mazeFactoryWidth = 20 ∧ r.mazeFactoryHeight = 10 ∧
      r.players.length = ([uuidP1, uuidP2] : List UUID).length ∧
      ∀ j, j < ([uuidP1, uuidP2] : List UUID).length →
        (r.players.getD j playerP1).id = ([uuidP1, uuidP2] : List UUID).getD j [] ∧
        (r.players.getD j playerP1).pos =
          defaultPlayerPositions.getD j { row := 0, col := 0 } :=
  ⟨by decide, C4_newSession_positions [uuidP1, uuidP2] (by decide)⟩

/-- C5 counterexample: with `maxPlayer = 2`, a trigger whose
`DequeTops` returns `["bad", "p1"]` — only one valid UUID — still
invokes the handler, with just `[uuidP1]`, and re-enqueues nothing:
the match is not aborted and no ids are reinserted. -/
theorem C5_counterexample_handler_called_short :
    matchTrigger 2 true 2 (.ok ["bad", "p1"]) parseDemo =
      { handlerCalled := some [uuidP1], reenqueued := [] } := by decide

/-- C5 (amended): whenever the queue count reaches `maxPlayer` and
`DequeTops` succeeds, the trigger drops non-UUID members and invokes
the handler (when one is set) with exactly the members that parse,
however many there are; it never re-enqueues anything. -/
theorem C5_handler_gets_all_valid (maxPlayer qLen : Int)
    (raws : List String) (parse : String → Option UUID) (hset : Bool)
    (hq : maxPlayer ≤ qLen) :
    matchTrigger maxPlayer hset qLen (.ok raws) parse =
      { handlerCalled := if hset then some (raws.filterMap parse) else none,
        reenqueued := [] } := by
  unfold matchTrigger
  rw [if_pos hq]
  cases hset <;> simp

/-- Witness for C5's amended theorem at a concrete input. -/
theorem C5_handler_gets_all_valid_witness :
    (2 : Int) ≤ 3 ∧
    matchTrigger 2 true 3 (.ok ["p1", "junk"]) parseDemo =
      { handlerCalled :=
          if true then some ((["p1", "junk"] : List String).filterMap parseDemo)
          else none,
        reenqueued := [] } :=
  ⟨by norm_num, C5_handler_gets_all_valid 2 3 ["p1", "junk"] parseDemo true
    (by norm_num)⟩

/-- Helper: one engine move action changes `version` by exactly one on
acceptance and leaves it unchanged on any rejection. -/
theorem handleIncomingMove_version (g : Game) (a : Action) :
    ((handleIncomingMove g a).1).version =
      if moveAccepted g a then g.version + 1 else g.version := by
  unfold handleIncomingMove moveAccepted
  cases hf : assocFind a.id g.players with
  | none => simp
  | some p =>
    dsimp only
    by_cases hpos : p.pos.row ≠ a.fromPos.row ∨ p.pos.col ≠ a.fromPos.col
    · simp [hpos]
    · rw [if_neg hpos, if_neg hpos]
      cases hnv : g.maze.NewValidMove p.pos a.direction with
      | error e => simp [exceptOk]
      | ok mv =>
        dsimp only
        cases hm : g.maze.Move mv <;> dsimp only <;>
          split <;> simp [exceptOk]

/-- C8: the engine's `version` increases by exactly one on every
accepted move, is unchanged by every rejected move (unknown player,
stale from-position, or invalid maze move), and is therefore
monotonically non-decreasing over any sequence of processed move
actions. -/
theorem C8_version_increment_iff_accepted :
    (∀ g a, ((handleIncomingMove g a).1).version =
      if moveAccepted g a then g.version + 1 else g.version) ∧
    ∀ g acts, g.version ≤ (runMoves g acts).version := by
  refine ⟨handleIncomingMove_version, ?_⟩
  intro g acts
  induction acts generalizing g with
  | nil => simp [runMoves]
  | cons a rest ih =>
    have h1 : g.version ≤ ((handleIncomingMove g a).1).version := by
      rw [handleIncomingMove_version]
      split <;> omega
    have h2 := ih ((handleIncomingMove g a).1)
    simp only [runMoves, List.foldl_cons] at h2 ⊢
    exact le_trans h1 h2

/-- C9: `IsValidMove` returns true exactly when both positions are in
bounds, `to` is one of the four orthogonal neighbors of `from` (so in
particular it returns false when `from = to`, for diagonal pairs, and
for pairs more than one cell apart), and the wall separating the two
cells is open in both cells. -/
theorem C9_isValidMove_iff (m : WillsonMaze) (mv : Move) :
    m.IsValidMove mv = true ↔
      (m.InBound mv.fromPos.row mv.fromPos.col = true ∧
       m.InBound mv.toPos.row mv.toPos.col = true ∧
       orthogonalNeighbor mv.fromPos mv.toPos ∧
       sharedWallOpen m mv.fromPos mv.toPos) := by
  obtain ⟨p, q⟩ := mv
  simp only [WillsonMaze.IsValidMove]
  cases hA : m.InBound p.row p.col with
  | false => simp [hA]
  | true =>
  cases hB : m.InBound q.row q.col with
  | false => simp [hB]
  | true =>
  simp only [Bool.not_true, Bool.or_self, Bool.false_eq_true, if_false,
    true_and]
  by_cases hc : p.col = q.col
  · by_cases h1 : p.row - q.row = 1
    · have hdir : getDirection p q = "North" := by
        rw [getDirection_vertical p q hc, h1]; decide
      rw [hdir]
      simp only [String.reduceEq, if_true, if_false, Bool.and_eq_true,
        Bool.not_eq_true']
      have hN : isNorthOf p q := ⟨hc.symm, by omega⟩
      constructor
      · rintro ⟨hw1, hw2⟩
        exact ⟨Or.inl hN, Or.inl ⟨hN, hw1, hw2⟩⟩
      · rintro ⟨-, hsh⟩
        rcases hsh with ⟨-, hw1, hw2⟩ | ⟨hS, -, -⟩ | ⟨hE, -, -⟩ | ⟨hW, -, -⟩
        · exact ⟨hw1, hw2⟩
        · exact absurd hS.2 (by omega)
        · exact absurd hE.2 (by omega)
        · exact absurd hW.2 (by omega)
    · by_cases h2 : p.row - q.row = -1
      · have hdir : getDirection p q = "South" := by
          rw [getDirection_vertical p q hc, h2]; decide
        rw [hdir]
        simp only [String.reduceEq, if_true, if_false, Bool.and_eq_true,
          Bool.not_eq_true']
        have hS : isSouthOf p q := ⟨hc.symm, by omega⟩
        constructor
        · rintro ⟨hw1, hw2⟩
          exact ⟨Or.inr (Or.inl hS), Or.inr (Or.inl ⟨hS, hw1, hw2⟩)⟩
        · rintro ⟨-, hsh⟩
          rcases hsh with ⟨hN, -, -⟩ | ⟨-, hw1, hw2⟩ | ⟨hE, -, -⟩ | ⟨hW, -, -⟩
          · exact absurd hN.2 (by omega)
          · exact ⟨hw1, hw2⟩
          · exact absurd hE.2 (by omega)
          · exact absurd hW.2 (by omega)
      · have hdir : getDirection p q = "" := by
          rw [getDirection_vertical p q hc]
          unfold verticalDir
          rw [if_neg h2, if_neg h1]
        rw [hdir]
        simp only [String.reduceEq, if_false, Bool.false_eq_true, false_iff]
        rintro ⟨horth, -⟩
        rcases horth with hN | hS | hE | hW
        · exact absurd hN.2 (by omega)
        · exact absurd hS.2 (by omega)
        · exact absurd hE.2 (by omega)
        · exact absurd hW.2 (by omega)
  · by_cases hr : p.row = q.row
    · by_cases h3 : p.col - q.col = 1
      · have hdir : getDirection p q = "West" := by
          rw [getDirection_horizontal p q hc hr, h3]; decide
        rw [hdir]
        simp only [String.reduceEq, if_true, if_false, Bool.and_eq_true,
          Bool.not_eq_true']
        have hW : isWestOf p q := ⟨hr.symm, by omega⟩
        constructor
        · rintro ⟨hw1, hw2⟩
          exact ⟨Or.inr (Or.inr (Or.inr hW)),
            Or.inr (Or.inr (Or.inr ⟨hW, hw1, hw2⟩))⟩
        · rintro ⟨-, hsh⟩
          rcases hsh with ⟨hN, -, -⟩ | ⟨hS, -, -⟩ | ⟨hE, -, -⟩ | ⟨-, hw1, hw2⟩
          · exact absurd hN.1 (by omega)
          · exact absurd hS.1 (by omega)
          · exact absurd hE.2 (by omega)
          · exact ⟨hw1, hw2⟩
      · by_cases h4 : p.col - q.col = -1
        · have hdir : getDirection p q = "East" := by
            rw [getDirection_horizontal p q hc hr, h4]; decide
          rw [hdir]
          simp only [String.reduceEq, if_true, if_false, Bool.and_eq_true,
            Bool.not_eq_true']
          have hE : isEastOf p q := ⟨hr.symm, by omega⟩
          constructor
          · rintro ⟨hw1, hw2⟩
            exact ⟨Or.inr (Or.inr (Or.inl hE)),
              Or.inr (Or.inr (Or.inl ⟨hE, hw1, hw2⟩))⟩
          · rintro ⟨-, hsh⟩
            rcases hsh with ⟨hN, -, -⟩ | ⟨hS, -, -⟩ | ⟨-, hw1, hw2⟩ | ⟨hW, -, -⟩
            · exact absurd hN.1 (by omega)
            · exact absurd hS.1 (by omega)
            · exact ⟨hw1, hw2⟩
            · exact absurd hW.2 (by omega)
        · have hdir : getDirection p q = "" := by
            rw [getDirection_horizontal p q hc hr]
            unfold horizontalDir
            rw [if_neg h3, if_neg h4]
          rw [hdir]
          simp only [String.reduceEq, if_false, Bool.false_eq_true, false_iff]
          rintro ⟨horth, -⟩
          rcases horth with hN | hS | hE | hW
          · exact absurd hN.1 (by omega)
          · exact absurd hS.1 (by omega)
          · exact absurd hE.2 (by omega)
          · exact absurd hW.2 (by omega)
    · have hdir : getDirection p q = "Direction Not Allowed" :=
        getDirection_diagonal p q hc hr
      rw [hdir]
      simp only [String.reduceEq, if_false, Bool.false_eq_true, false_iff]
      rintro ⟨horth, -⟩
      rcases horth with hN | hS | hE | hW
      · exact absurd hN.1 (fun hcc => hc hcc.symm)
      · exact absurd hS.1 (fun hcc => hc hcc.symm)
      · exact absurd hE.1 (fun hrr => hr hrr.symm)
      · exact absurd hW.1 (fun hrr => hr hrr.symm)

/-- C10: a second ClientHello with a valid cookie and a long-enough key
but an absent/empty token never registers a client: the authenticator
is invoked with the empty byte string, the registry's `Authenticate`
fails because the empty string does not parse as a UUID, so no client
record is created, no SERVER_HELLO is sent, and the clients map is
unchanged. -/
theorem C10_empty_token_never_registers (expectedCookie : Bytes)
    (symDecrypt : Bytes → Bytes → Option Bytes)
    (playerToSession : List (UUID × UUID)) (newSessionID : Bytes)
    (clients : List (UUID × Bytes)) (h : ServerHelloMsg)
    (hcookie : h.cookie = expectedCookie)
    (hkey : insecureSymmKeySize ≤ h.key.length)
    (htoken : h.token = []) :
    sayServerHello expectedCookie symDecrypt
        (GSMAuthenticate playerToSession) newSessionID clients h =
      { clients := clients, serverHelloSentTo := none,
        authenticateCalledWith := some [] } := by
  unfold sayServerHello
  rw [if_neg (by simp [hcookie]), if_neg (by omega)]
  simp [htoken, GSMAuthenticate, uuidFromBytes]

/-- Witness for C10 at a concrete tokenless ClientHello. -/
theorem C10_empty_token_witness :
    helloNoToken.cookie = [7, 7] ∧
    insecureSymmKeySize ≤ helloNoToken.key.length ∧
    helloNoToken.token = [] ∧
    sayServerHello [7, 7] (fun _ _ => none) (GSMAuthenticate []) [5] []
        helloNoToken =
      { clients := [], serverHelloSentTo := none,
        authenticateCalledWith := some [] } :=
  ⟨rfl, by decide, rfl,
   C10_empty_token_never_registers [7, 7] (fun _ _ => none) [] [5] []
     helloNoToken rfl (by decide) rfl⟩

end Vinom
